import Mathlib

/-!
Shallow embedding of the `go-web-wa` repository: a batch job that loads
configuration from the environment, opens a WhatsApp session, connects with a
bounded timeout, fetches a target account's profile picture, and delivers it
(or a failure notice) to a Discord webhook.

Packages embedded:
* `pkg/config` (file `part_000`): environment-driven configuration loading.
* `pkg/discord` (file `part_001`): webhook payload construction and delivery.
* `pkg/whatsapp` (file `part_002`): session facade over the whatsmeow library.
* `main.go`: the orchestration flow (`main`, `sendErrorToDiscord`, `pairDevice`).

External effects (the OS environment, HTTP responses, library-call results) are
supplied as oracle parameters; the embedded functions mirror the Go control
flow over those oracles.  Process runs are embedded as the list of observable
events (log lines, webhook calls, library calls) they emit.
-/

namespace GoWebWA

/-! ## pkg/config (part_000) -/

/-- `config.Config`: flat configuration record. -/
structure Config where
  targetPhoneNumber : String
  sessionFilePath : String
  discordWebhookURL : String
  googleCloudProject : String
  googleCloudBucket : String
  logLevel : String
deriving Repr, DecidableEq

/-- `config.getEnv`: read `key` from the environment, falling back to
`defaultValue` when the variable is unset or empty.  The environment is the
oracle `environ`; Go's `os.Getenv` returns `""` for an absent variable, so
absent and empty are indistinguishable, exactly as in the source. -/
def getEnv (environ : String → String) (key defaultValue : String) : String :=
  if environ key ≠ "" then environ key else defaultValue

/-- `config.Load`: build the `Config` from the environment, then validate the
two required fields, in source order. -/
def Load (environ : String → String) : Except String Config :=
  let config : Config :=
    { targetPhoneNumber := getEnv environ "TARGET_PHONE_NUMBER" ""
      sessionFilePath := getEnv environ "SESSION_FILE_PATH" "./sessions/"
      discordWebhookURL := getEnv environ "DISCORD_WEBHOOK_URL" ""
      googleCloudProject := getEnv environ "GOOGLE_CLOUD_PROJECT" ""
      googleCloudBucket := getEnv environ "GOOGLE_CLOUD_BUCKET" ""
      logLevel := getEnv environ "LOG_LEVEL" "info" }
  if config.targetPhoneNumber = "" then
    Except.error "TARGET_PHONE_NUMBER is required"
  else if config.discordWebhookURL = "" then
    Except.error "DISCORD_WEBHOOK_URL is required"
  else
    Except.ok config

/-! ## pkg/discord (part_001): payload model -/

/-- `discord.Footer`. -/
structure Footer where
  text : String
deriving Repr, DecidableEq

/-- `discord.Image` (embed image reference). -/
structure EmbedImage where
  url : String
deriving Repr, DecidableEq

/-- `discord.Embed`. -/
structure Embed where
  title : String
  description : String
  color : Nat
  timestamp : String
  footer : Option Footer
  image : Option EmbedImage
deriving Repr, DecidableEq

/-- `discord.MessagePayload`. -/
structure MessagePayload where
  content : String
  embeds : List Embed
deriving Repr, DecidableEq

/-- Payload built by `discord.SendMessage`. -/
def sendMessagePayload (message : String) : MessagePayload :=
  { content := message, embeds := [] }

/-- Payload built by `discord.SendErrorMessage` (red embed, fixed footer);
`now` stands for `time.Now().Format(time.RFC3339)`. -/
def errorMessagePayload (title description now : String) : MessagePayload :=
  { content := ""
    embeds := [{ title := title, description := description, color := 0xFF0000,
                 timestamp := now, footer := some { text := "WhatsApp Profile Fetcher" },
                 image := none }] }

/-- Payload built by `discord.SendSuccessMessage` (green embed). -/
def successMessagePayload (title description now : String) : MessagePayload :=
  { content := ""
    embeds := [{ title := title, description := description, color := 0x00FF00,
                 timestamp := now, footer := some { text := "WhatsApp Profile Fetcher" },
                 image := none }] }

/-- Caption payload built inside `discord.SendImageWithFile` (blue embed). -/
def imageCaptionPayload (phoneNumber now : String) : MessagePayload :=
  { content := ""
    embeds := [{ title := "WhatsApp Profile Image",
                 description := "Profile image for: " ++ phoneNumber,
                 color := 0x0099FF,
                 timestamp := now, footer := some { text := "WhatsApp Profile Fetcher" },
                 image := none }] }

/-- One part of a multipart form body, as written by `SendImageWithFile`:
`filePart` is produced by `writer.CreateFormFile` plus the image bytes,
`jsonPart` by `writer.CreateFormField` plus the `json.Marshal`ed caption
payload (the byte-level JSON text is not modelled; the part carries the
marshalled record, and `json.Marshal` cannot fail on these struct types). -/
inductive Part where
  | filePart (fieldName filename : String) (data : List Nat)
  | jsonPart (fieldName : String) (payload : MessagePayload)
deriving Repr, DecidableEq

/-- The multipart body assembled by `discord.SendImageWithFile` before the
POST: one file part named `"file"`, then one field named `"payload_json"`. -/
def sendImageParts (imageData : List Nat) (filename phoneNumber now : String) :
    List Part :=
  [Part.filePart "file" filename imageData,
   Part.jsonPart "payload_json" (imageCaptionPayload phoneNumber now)]

/-- Number of binary file parts in a multipart body. -/
def countFileParts : List Part → Nat
  | [] => 0
  | Part.filePart _ _ _ :: rest => countFileParts rest + 1
  | Part.jsonPart _ _ :: rest => countFileParts rest

/-- Number of JSON caption parts in a multipart body. -/
def countJsonParts : List Part → Nat
  | [] => 0
  | Part.jsonPart _ _ :: rest => countJsonParts rest + 1
  | Part.filePart _ _ _ :: rest => countJsonParts rest

/-! ## pkg/discord (part_001): HTTP delivery -/

/-- Outcome of `httpClient.Do(req)` as seen by the webhook code: either the
transport fails, or a response with a status code and a readable body comes
back. -/
inductive HTTPResult where
  | transportError (e : String)
  | response (status : Nat) (body : String)
deriving Repr, DecidableEq

/-- `discord.sendPayload`: POST a JSON payload and translate the HTTP outcome
into `none` (nil error) or `some msg`.  Mirrors the source checks in order:
transport failure, then `resp.StatusCode >= 400`. -/
def sendPayload (_payload : MessagePayload) (r : HTTPResult) : Option String :=
  match r with
  | HTTPResult.transportError e => some ("failed to send request: " ++ e)
  | HTTPResult.response status body =>
      if 400 ≤ status then
        some ("discord webhook returned error: " ++ toString status ++ " - " ++ body)
      else
        none

/-- The HTTP-outcome handling at the end of `discord.SendImageWithFile`
(lines 162-173 of the source), duplicated verbatim from `sendPayload` in the
Go code. -/
def sendImageHTTPOutcome (r : HTTPResult) : Option String :=
  match r with
  | HTTPResult.transportError e => some ("failed to send request: " ++ e)
  | HTTPResult.response status body =>
      if 400 ≤ status then
        some ("discord webhook returned error: " ++ toString status ++ " - " ++ body)
      else
        none

/-- `discord.SendImageWithFile`: assemble the multipart body (the builder
steps cannot fail when writing to an in-memory buffer, as here), POST it, and
check the response. -/
def SendImageWithFile (imageData : List Nat) (filename phoneNumber now : String)
    (r : HTTPResult) : List Part × Option String :=
  (sendImageParts imageData filename phoneNumber now, sendImageHTTPOutcome r)

/-! ## pkg/whatsapp (part_002): phone-number parsing -/

/-- The formatting cleanup shared by `whatsapp.parsePhoneNumber` and
`main.pairDevice`: strip `+`, `-` and spaces. -/
def cleanPhoneNumber (phoneNumber : String) : String :=
  ((phoneNumber.replace "+" "").replace "-" "").replace " " ""

/-- `types.JID` (whatsmeow addressing). -/
structure JID where
  user : String
  server : String
deriving Repr, DecidableEq

/-- `types.DefaultUserServer`. -/
def DefaultUserServer : String := "s.whatsapp.net"

/-- `whatsapp.parsePhoneNumber`: always succeeds, returning the cleaned number
as a user JID (the Go function never returns a non-nil error). -/
def parsePhoneNumber (phoneNumber : String) : Except String JID :=
  Except.ok { user := cleanPhoneNumber phoneNumber, server := DefaultUserServer }

/-! ## pkg/whatsapp (part_002): Connect

`Client.Connect` first rejects when `Store.ID == nil`, then calls the
library's `client.Connect()`, then polls `IsConnected()` every 500 ms,
racing a hard-coded `time.After(30 * time.Second)` against `ctx.Done()`.
Time is modelled in milliseconds from the moment the polling loop starts;
the context deadline (set microseconds earlier in `main`) is measured from
the same origin.  When several channels become ready at the same instant,
Go picks one at random; the model resolves such ties in the source's `case`
order (`ctx.Done`, then `timeout`, then `ticker`), one of the schedules Go
may choose.  The oracle `connectedAt` gives the first instant at which
`IsConnected()` reports `true` (`none` = never during the run). -/

/-- Result of `Client.Connect`: which error (or success) the call returns,
tagged with the elapsed time in milliseconds at which it returns. -/
inductive ConnectOutcome where
  | notLoggedIn
  | connectFailed (e : String)
  | ctxErr (t : Nat)
  | timeoutErr (t : Nat)
  | connected (t : Nat)
  | fuelOut
deriving Repr, DecidableEq

/-- The `for { select { ... } }` polling loop of `Client.Connect`.  `t` is the
current time; each iteration sleeps until the earliest of the context
deadline, the 30 000 ms internal timeout, and the next 500 ms tick.  `fuel`
bounds the number of iterations (the loop itself always terminates within 60
ticks, as the theorems show). -/
def connectLoop (ctxDeadline : Nat) (connectedAt : Option Nat) :
    Nat → Nat → ConnectOutcome
  | 0, _ => ConnectOutcome.fuelOut
  | fuel + 1, t =>
      let wake := min ctxDeadline (min 30000 (t + 500))
      if wake = ctxDeadline then ConnectOutcome.ctxErr wake
      else if wake = 30000 then ConnectOutcome.timeoutErr wake
      else
        match connectedAt with
        | some ca =>
            if ca ≤ wake then ConnectOutcome.connected wake
            else connectLoop ctxDeadline connectedAt fuel wake
        | none => connectLoop ctxDeadline connectedAt fuel wake

/-- Oracle inputs for one `Client.Connect` call. -/
structure ConnectEnv where
  loggedIn : Bool
  libConnectErr : Option String
  connectedAt : Option Nat
  ctxDeadline : Nat
deriving Repr

/-- `Client.Connect` (part_002 lines 84-115). -/
def Connect (env : ConnectEnv) (fuel : Nat) : ConnectOutcome :=
  if ¬ env.loggedIn then ConnectOutcome.notLoggedIn
  else
    match env.libConnectErr with
    | some e => ConnectOutcome.connectFailed e
    | none => connectLoop env.ctxDeadline env.connectedAt fuel 0

/-! ## pkg/whatsapp (part_002): GetProfilePicture -/

/-- Outcome of the raw HTTP GET inside `downloadImage`. -/
inductive DLResult where
  | transportError (e : String)
  | response (status : Nat) (data : List Nat)
deriving Repr, DecidableEq

/-- `whatsapp.downloadImage`: transport failure, then a strict
`StatusCode != 200` check, then the body bytes. -/
def downloadImage (r : DLResult) : Except String (List Nat) :=
  match r with
  | DLResult.transportError e => Except.error ("failed to download image: " ++ e)
  | DLResult.response status data =>
      if status ≠ 200 then
        Except.error ("failed to download image: HTTP " ++ toString status)
      else
        Except.ok data

/-- Oracle inputs for one `Client.GetProfilePicture` call: the client's
`isConnected` flag (set only by a successful `Connect`), the result of the
library's `GetProfilePictureInfo` (an error, `nil`, or an info record with a
URL), and the HTTP outcome of downloading each URL. -/
structure FetchEnv where
  isConnected : Bool
  picInfo : JID → Except String (Option String)
  http : String → DLResult

/-- `Client.GetProfilePicture` (part_002 lines 227-255). -/
def GetProfilePicture (env : FetchEnv) (phoneNumber : String) :
    Except String (List Nat) :=
  if ¬ env.isConnected then Except.error "not connected to WhatsApp"
  else
    match parsePhoneNumber phoneNumber with
    | Except.error e => Except.error ("failed to parse phone number: " ++ e)
    | Except.ok jid =>
        match env.picInfo jid with
        | Except.error e =>
            Except.error ("failed to get profile picture info: " ++ e)
        | Except.ok none =>
            Except.error ("no profile picture found for " ++ phoneNumber)
        | Except.ok (some url) =>
            match downloadImage (env.http url) with
            | Except.error e =>
                Except.error ("failed to download profile picture: " ++ e)
            | Except.ok data => Except.ok data

/-! ## pkg/whatsapp (part_002): Disconnect / Close

`Client.Disconnect` forwards to the whatsmeow client when non-nil;
`Client.Close` forwards to the whatsmeow client and then closes the sqlstore
container.  The two external calls are modelled from the libraries'
documented behaviour: whatsmeow's `Client.Disconnect` tears the websocket
down only when it is up (repeat calls are no-ops), and `sqlstore.Container.Close`
delegates to `database/sql.DB.Close`, which releases the handle on the first
call and returns nil on every later call.  `firstCloseErr` is the oracle for
what the first, effectful store close returns. -/

/-- State of the two external resources owned through the facade. -/
structure TeardownState where
  sockConnected : Bool
  storeOpen : Bool
deriving Repr, DecidableEq

/-- Observable teardown effects: a websocket close frame on the network, and
the release of the session-store handle. -/
inductive TEv where
  | closeFrame
  | releaseStore
deriving Repr, DecidableEq

/-- whatsmeow `client.Disconnect()` (external, modelled as documented). -/
def meowDisconnect (s : TeardownState) : TeardownState × List TEv :=
  if s.sockConnected then ({ s with sockConnected := false }, [TEv.closeFrame])
  else (s, [])

/-- sqlstore `store.Close()` (external, modelled as documented). -/
def storeClose (firstCloseErr : Option String) (s : TeardownState) :
    TeardownState × List TEv × Option String :=
  if s.storeOpen then ({ s with storeOpen := false }, [TEv.releaseStore], firstCloseErr)
  else (s, [], none)

/-- `Client.Disconnect` (part_002 lines 118-122): the client pointer is never
nil after a successful `NewClient`, so the guard always takes the call. -/
def clientDisconnect (s : TeardownState) : TeardownState × List TEv :=
  meowDisconnect s

/-- `Client.Close` (part_002 lines 125-133): disconnect the transport, then
close the store, returning the store's error. -/
def clientClose (firstCloseErr : Option String) (s : TeardownState) :
    TeardownState × List TEv × Option String :=
  ((storeClose firstCloseErr (meowDisconnect s).1).1,
   (meowDisconnect s).2 ++ (storeClose firstCloseErr (meowDisconnect s).1).2.1,
   (storeClose firstCloseErr (meowDisconnect s).1).2.2)

/-- A teardown call made by a caller of the facade. -/
inductive TOp where
  | disconnectOp
  | closeOp
deriving Repr, DecidableEq

/-- Run a sequence of `Disconnect`/`Close` calls, accumulating the emitted
effects and the error results of the `Close` calls (in call order). -/
def runTeardown (firstCloseErr : Option String) :
    TeardownState → List TOp → TeardownState × List TEv × List (Option String)
  | s, [] => (s, [], [])
  | s, TOp.disconnectOp :: rest =>
      ((runTeardown firstCloseErr (clientDisconnect s).1 rest).1,
       (clientDisconnect s).2 ++ (runTeardown firstCloseErr (clientDisconnect s).1 rest).2.1,
       (runTeardown firstCloseErr (clientDisconnect s).1 rest).2.2)
  | s, TOp.closeOp :: rest =>
      ((runTeardown firstCloseErr (clientClose firstCloseErr s).1 rest).1,
       (clientClose firstCloseErr s).2.1 ++
         (runTeardown firstCloseErr (clientClose firstCloseErr s).1 rest).2.1,
       (clientClose firstCloseErr s).2.2 ::
         (runTeardown firstCloseErr (clientClose firstCloseErr s).1 rest).2.2)

/-- Number of occurrences of a teardown effect in a trace. -/
def countTEv (e : TEv) : List TEv → Nat
  | [] => 0
  | x :: rest => (if x = e then 1 else 0) + countTEv e rest

/-! ## main.go: orchestration flow

A process run is embedded as the list of observable events it emits, in
order.  `log.Fatalf` prints and calls `os.Exit`, which terminates the process
immediately and does NOT run deferred functions; it is the last event of such
a run.  A plain `return` from `main` or `pairDevice` runs the deferred
`waClient.Close()` (when it was registered), which appears as `closeCall`. -/

/-- Observable events of a run. -/
inductive Ev where
  | logLine (msg : String)
  | logFatal (msg : String)
  | sinkError (title description : String)
  | sinkSuccess (title description : String)
  | sinkImage (filename phoneNumber : String)
  | connectCall
  | fetchCall (phoneNumber : String)
  | disconnectCall
  | closeCall
deriving Repr, DecidableEq

/-- Oracle inputs for one run of `main` (the fetch-and-deliver flow). -/
structure MainEnv where
  environ : String → String
  newClientErr : Option String
  loggedIn : Bool
  connectErr : Option String
  fetchResult : Except String (List Nat)
  sendImageErr : Option String
  sendErrorErr : Option String
  sendSuccessErr : Option String
  now : String

/-- `main.sendErrorToDiscord` (main.go lines 98-102): one webhook call; if it
fails, the failure is written to the local log and nothing else happens. -/
def sendErrorToDiscordTrace (sendErrorErr : Option String) (title message : String) :
    List Ev :=
  Ev.sinkError title message ::
    match sendErrorErr with
    | some e => [Ev.logLine ("Failed to send error message to Discord: " ++ e)]
    | none => []

/-- The filename generated at main.go line 68:
`fmt.Sprintf("profile_%s_%s.jpg", cfg.TargetPhoneNumber, time.Now().Format("20060102_150405"))`. -/
def makeFilename (phoneNumber now : String) : String :=
  "profile_" ++ phoneNumber ++ "_" ++ now ++ ".jpg"

/-- `main.main` (main.go lines 16-95), as the event trace of one run. -/
def runMain (env : MainEnv) : List Ev :=
  match Load env.environ with
  | Except.error e => [Ev.logFatal ("Failed to load configuration: " ++ e)]
  | Except.ok cfg =>
      Ev.logLine ("Starting WhatsApp Profile Fetcher for: " ++ cfg.targetPhoneNumber) ::
      match env.newClientErr with
      | some e =>
          Ev.logLine ("Failed to create WhatsApp client: " ++ e) ::
          sendErrorToDiscordTrace env.sendErrorErr "WhatsApp Client Error"
            ("Failed to create WhatsApp client: " ++ e)
      | none =>
          if ¬ env.loggedIn then
            Ev.logLine "WhatsApp client not logged in. Please run the pairing process first." ::
            sendErrorToDiscordTrace env.sendErrorErr "Authentication Required"
              "WhatsApp client not logged in. Please run the pairing process first."
            ++ [Ev.closeCall]
          else
            Ev.logLine "Connecting to WhatsApp..." ::
            Ev.connectCall ::
            match env.connectErr with
            | some e =>
                Ev.logLine ("Failed to connect to WhatsApp: " ++ e) ::
                sendErrorToDiscordTrace env.sendErrorErr "Connection Error"
                  ("Failed to connect to WhatsApp: " ++ e)
                ++ [Ev.closeCall]
            | none =>
                Ev.logLine ("Fetching profile picture for: " ++ cfg.targetPhoneNumber) ::
                Ev.fetchCall cfg.targetPhoneNumber ::
                match env.fetchResult with
                | Except.error e =>
                    Ev.logLine ("Failed to fetch profile picture: " ++ e) ::
                    sendErrorToDiscordTrace env.sendErrorErr "Profile Picture Error"
                      ("Failed to fetch profile picture for " ++ cfg.targetPhoneNumber
                        ++ ": " ++ e)
                    ++ [Ev.closeCall]
                | Except.ok _imageData =>
                    Ev.logLine "Sending profile picture to Discord..." ::
                    Ev.sinkImage (makeFilename cfg.targetPhoneNumber env.now)
                      cfg.targetPhoneNumber ::
                    match env.sendImageErr with
                    | some e =>
                        Ev.logLine ("Failed to send image to Discord: " ++ e) ::
                        sendErrorToDiscordTrace env.sendErrorErr "Discord Error"
                          ("Failed to send image to Discord: " ++ e)
                        ++ [Ev.closeCall]
                    | none =>
                        Ev.logLine "Profile picture sent successfully!" ::
                        Ev.sinkSuccess "Profile Picture Fetched"
                          ("Successfully fetched and sent profile picture for "
                            ++ cfg.targetPhoneNumber) ::
                        Ev.disconnectCall ::
                        Ev.logLine "Task completed successfully!" ::
                        [Ev.closeCall]

/-- Oracle inputs for one run of `pairDevice` (the interactive pairing mode). -/
structure PairEnv where
  sessionPathEnv : String
  newClientErr : Option String
  loggedIn : Bool
  choice : String
  phoneInput : String
  pairQRErr : Option String
  pairPhoneErr : Option String
deriving Repr

/-- `main.pairDevice` (main.go lines 105-159), as the event trace of one run.
All failure paths go through `log.Fatalf`, which exits without running the
deferred `waClient.Close()`. -/
def runPair (env : PairEnv) : List Ev :=
  match env.newClientErr with
  | some e => [Ev.logFatal ("Failed to create WhatsApp client: " ++ e)]
  | none =>
      if env.loggedIn then
        [Ev.logLine "Already logged in to WhatsApp", Ev.closeCall]
      else if env.choice = "1" then
        Ev.logLine "Starting QR code pairing..." ::
        match env.pairQRErr with
        | some e => [Ev.logFatal ("Failed to pair with QR code: " ++ e)]
        | none => [Ev.logLine "Pairing completed successfully!", Ev.closeCall]
      else if env.choice = "2" then
        Ev.logLine ("Starting phone number pairing for: "
          ++ cleanPhoneNumber env.phoneInput) ::
        match env.pairPhoneErr with
        | some e => [Ev.logFatal ("Failed to pair with phone number: " ++ e)]
        | none => [Ev.logLine "Pairing completed successfully!", Ev.closeCall]
      else
        [Ev.logFatal ("Invalid choice: " ++ env.choice)]

/-! ## Trace helpers -/

/-- Number of `closeCall` events in a trace. -/
def countClose : List Ev → Nat
  | [] => 0
  | Ev.closeCall :: rest => countClose rest + 1
  | _ :: rest => countClose rest

/-- Is the event a network call (webhook POST, transport connect, or profile
fetch)?  Log lines and process-local teardown are not network calls. -/
def isNetworkEv : Ev → Bool
  | Ev.sinkError _ _ => true
  | Ev.sinkSuccess _ _ => true
  | Ev.sinkImage _ _ => true
  | Ev.connectCall => true
  | Ev.fetchCall _ => true
  | _ => false

/-- Number of network events in a trace. -/
def countNetwork : List Ev → Nat
  | [] => 0
  | x :: rest => (if isNetworkEv x then 1 else 0) + countNetwork rest

/-- Number of webhook calls (sink deliveries) in a trace. -/
def countSink : List Ev → Nat
  | [] => 0
  | Ev.sinkError _ _ :: rest => countSink rest + 1
  | Ev.sinkSuccess _ _ :: rest => countSink rest + 1
  | Ev.sinkImage _ _ :: rest => countSink rest + 1
  | _ :: rest => countSink rest

/-- Is the event a local log line (ordinary or fatal)? -/
def isLogEv : Ev → Bool
  | Ev.logLine _ => true
  | Ev.logFatal _ => true
  | _ => false

/-- Drop local log lines from a trace, keeping every externally visible
action in order. -/
def purgeLogs (l : List Ev) : List Ev :=
  l.filter (fun e => ¬ isLogEv e)

/-- Does the trace end in a `log.Fatalf` exit? -/
def hasFatal : List Ev → Bool
  | [] => false
  | Ev.logFatal _ :: _ => true
  | _ :: rest => hasFatal rest

/-! ## Concrete inputs used by witnesses and counterexamples -/

/-- Environment with the webhook URL set but no target number. -/
def environMissingTarget : String → String :=
  fun key => if key = "DISCORD_WEBHOOK_URL" then "https://example.invalid/hook" else ""

/-- Environment with both required variables set and all optional ones absent. -/
def environFull : String → String :=
  fun key =>
    if key = "TARGET_PHONE_NUMBER" then "15551234567"
    else if key = "DISCORD_WEBHOOK_URL" then "https://example.invalid/hook"
    else ""

/-- The configuration record `Load` produces from `environFull`. -/
def cfgFull : Config :=
  { targetPhoneNumber := "15551234567", sessionFilePath := "./sessions/",
    discordWebhookURL := "https://example.invalid/hook", googleCloudProject := "",
    googleCloudBucket := "", logLevel := "info" }

/-- A run of `main` over `environFull` in which every external call succeeds. -/
def mainEnvHappy : MainEnv :=
  { environ := environFull, newClientErr := none, loggedIn := true,
    connectErr := none, fetchResult := Except.ok [255, 216], sendImageErr := none,
    sendErrorErr := none, sendSuccessErr := none, now := "20260101_000000" }

/-- A run of `main` over an environment with no target number. -/
def mainEnvMissingTarget : MainEnv :=
  { mainEnvHappy with environ := environMissingTarget }

/-- A fetch-call oracle: connected, but the library reports no avatar set. -/
def fetchEnvNoAvatar : FetchEnv :=
  { isConnected := true, picInfo := fun _ => Except.ok none,
    http := fun _ => DLResult.response 200 [1] }

/-- A fetch-call oracle for a client on which `Connect` has not succeeded. -/
def fetchEnvDisconnected : FetchEnv :=
  { fetchEnvNoAvatar with isConnected := false }

/-! ## Claim theorems -/

/-- Claim C3 (confirmed): with the target number or the webhook URL absent
(or empty), `Load` fails with an error naming the missing variable and the
run makes no network call; with both present, loading succeeds, required
fields are taken verbatim and the optional session path and log level get
their fixed defaults when absent. -/
theorem config_load_spec (env : MainEnv) :
    (env.environ "TARGET_PHONE_NUMBER" = "" →
       Load env.environ = Except.error "TARGET_PHONE_NUMBER is required" ∧
       countNetwork (runMain env) = 0) ∧
    (env.environ "TARGET_PHONE_NUMBER" ≠ "" → env.environ "DISCORD_WEBHOOK_URL" = "" →
       Load env.environ = Except.error "DISCORD_WEBHOOK_URL is required" ∧
       countNetwork (runMain env) = 0) ∧
    (env.environ "TARGET_PHONE_NUMBER" ≠ "" → env.environ "DISCORD_WEBHOOK_URL" ≠ "" →
       Load env.environ = Except.ok
         { targetPhoneNumber := env.environ "TARGET_PHONE_NUMBER"
           sessionFilePath :=
             if env.environ "SESSION_FILE_PATH" = "" then "./sessions/"
             else env.environ "SESSION_FILE_PATH"
           discordWebhookURL := env.environ "DISCORD_WEBHOOK_URL"
           googleCloudProject :=
             if env.environ "GOOGLE_CLOUD_PROJECT" = "" then ""
             else env.environ "GOOGLE_CLOUD_PROJECT"
           googleCloudBucket :=
             if env.environ "GOOGLE_CLOUD_BUCKET" = "" then ""
             else env.environ "GOOGLE_CLOUD_BUCKET"
           logLevel :=
             if env.environ "LOG_LEVEL" = "" then "info"
             else env.environ "LOG_LEVEL" }) := by
  obtain ⟨environ, nce, li, ce, fr, sie, see, sse, now⟩ := env
  refine ⟨?_, ?_, ?_⟩
  · intro h1
    dsimp only at h1
    refine ⟨by simp [Load, getEnv, h1], ?_⟩
    simp [runMain, Load, getEnv, h1, countNetwork, isNetworkEv]
  · intro h1 h2
    dsimp only at h1 h2
    refine ⟨by simp [Load, getEnv, h1, h2], ?_⟩
    simp [runMain, Load, getEnv, h1, h2, countNetwork, isNetworkEv]
  · intro h1 h2
    dsimp only at h1 h2
    simp [Load, getEnv, h1, h2]

/-- Witness for C3 at concrete environments. -/
theorem config_load_spec_witness :
    (Load environMissingTarget = Except.error "TARGET_PHONE_NUMBER is required" ∧
     countNetwork (runMain mainEnvMissingTarget) = 0) ∧
    Load environFull = Except.ok cfgFull := by
  refine ⟨(config_load_spec mainEnvMissingTarget).1 rfl, ?_⟩
  have h := (config_load_spec mainEnvHappy).2.2 (by decide) (by decide)
  exact h.trans rfl

/-- Claim C4 (confirmed): with a session store holding no device identity
(`IsLoggedIn` false), the flow posts an "Authentication Required" notice to
the webhook and terminates without ever calling `Connect` (or fetching). -/
theorem auth_required_skips_connect (env : MainEnv) (cfg : Config)
    (hload : Load env.environ = Except.ok cfg)
    (hnc : env.newClientErr = none) (hli : env.loggedIn = false) :
    Ev.sinkError "Authentication Required"
      "WhatsApp client not logged in. Please run the pairing process first." ∈ runMain env ∧
    Ev.connectCall ∉ runMain env ∧
    Ev.fetchCall cfg.targetPhoneNumber ∉ runMain env := by
  obtain ⟨environ, nce, li, ce, fr, sie, see, sse, now⟩ := env
  dsimp only at hload hnc hli
  subst hnc hli
  cases see <;> simp [runMain, hload, sendErrorToDiscordTrace]

/-- Witness for C4 at a concrete not-logged-in run. -/
theorem auth_required_skips_connect_witness :
    Ev.sinkError "Authentication Required"
      "WhatsApp client not logged in. Please run the pairing process first."
      ∈ runMain { mainEnvHappy with loggedIn := false } ∧
    Ev.connectCall ∉ runMain { mainEnvHappy with loggedIn := false } ∧
    Ev.fetchCall cfgFull.targetPhoneNumber
      ∉ runMain { mainEnvHappy with loggedIn := false } :=
  auth_required_skips_connect { mainEnvHappy with loggedIn := false } cfgFull
    rfl rfl rfl

/-- Claim C5 (confirmed): `GetProfilePicture` returns the "not connected"
error whenever the client has not successfully connected, and, when connected
and the library reports no avatar, returns the "no profile picture found"
error naming the target — a message distinct from the not-connected error and
from every download-failure message. -/
theorem fetch_avatar_error_taxonomy (env : FetchEnv) (phoneNumber : String) :
    (env.isConnected = false →
       GetProfilePicture env phoneNumber = Except.error "not connected to WhatsApp") ∧
    (env.isConnected = true →
       env.picInfo { user := cleanPhoneNumber phoneNumber, server := DefaultUserServer } =
         Except.ok none →
       GetProfilePicture env phoneNumber =
         Except.error ("no profile picture found for " ++ phoneNumber)) ∧
    ("no profile picture found for " ++ phoneNumber) ≠ "not connected to WhatsApp" ∧
    (∀ e, ("no profile picture found for " ++ phoneNumber) ≠
          ("failed to download profile picture: " ++ e)) := by
  refine ⟨?_, ?_, ?_, ?_⟩
  · intro h
    simp [GetProfilePicture, h]
  · intro h hpi
    simp [GetProfilePicture, parsePhoneNumber, h, hpi]
  · intro h
    have h2 := congrArg String.length h
    rw [String.length_append] at h2
    have h3 : ("no profile picture found for ").length = 29 := rfl
    have h4 : ("not connected to WhatsApp").length = 25 := rfl
    omega
  · intro e h
    have h2 := congrArg (fun s => s.data.head?) h
    simp [String.data_append] at h2

/-- Witness for C5 at concrete fetch oracles. -/
theorem fetch_avatar_error_taxonomy_witness :
    GetProfilePicture fetchEnvDisconnected "15551234567" =
      Except.error "not connected to WhatsApp" ∧
    GetProfilePicture fetchEnvNoAvatar "+1 555-123-4567" =
      Except.error ("no profile picture found for " ++ "+1 555-123-4567") :=
  ⟨(fetch_avatar_error_taxonomy fetchEnvDisconnected "15551234567").1 rfl,
   (fetch_avatar_error_taxonomy fetchEnvNoAvatar "+1 555-123-4567").2.1 rfl rfl⟩

/-- Claim C6 (confirmed): the multipart body of a successful delivery holds
exactly one binary file part and exactly one JSON caption part, and the
generated filename embeds both the target identifier and the timestamp. -/
theorem multipart_payload_shape (imageData : List Nat) (phoneNumber now : String) :
    countFileParts (sendImageParts imageData (makeFilename phoneNumber now) phoneNumber now) = 1 ∧
    countJsonParts (sendImageParts imageData (makeFilename phoneNumber now) phoneNumber now) = 1 ∧
    (∃ pre post, makeFilename phoneNumber now = pre ++ phoneNumber ++ post) ∧
    (∃ pre post, makeFilename phoneNumber now = pre ++ now ++ post) := by
  refine ⟨rfl, rfl,
    ⟨"profile_", "_" ++ now ++ ".jpg", ?_⟩,
    ⟨"profile_" ++ phoneNumber ++ "_", ".jpg", ?_⟩⟩
  · simp [makeFilename, String.append_assoc]
  · simp [makeFilename, String.append_assoc]

/-- Claim C7 (confirmed): for both delivery shapes, when the HTTP POST
completes, the call fails if and only if the response status is an error
status (≥ 400), the failure message carries the response body, and every
success status yields no error. -/
theorem webhook_non_success_status_failure (payload : MessagePayload)
    (status : Nat) (body : String) :
    ((sendPayload payload (HTTPResult.response status body)).isSome ↔ 400 ≤ status) ∧
    ((sendImageHTTPOutcome (HTTPResult.response status body)).isSome ↔ 400 ≤ status) ∧
    (400 ≤ status →
       sendPayload payload (HTTPResult.response status body) =
         some ("discord webhook returned error: " ++ toString status ++ " - " ++ body) ∧
       sendImageHTTPOutcome (HTTPResult.response status body) =
         some ("discord webhook returned error: " ++ toString status ++ " - " ++ body)) ∧
    (status < 400 →
       sendPayload payload (HTTPResult.response status body) = none ∧
       sendImageHTTPOutcome (HTTPResult.response status body) = none) := by
  by_cases h : 400 ≤ status <;>
    simp [sendPayload, sendImageHTTPOutcome, h]

/-- Witness for C7 at status 404 (error) and status 204 (success). -/
theorem webhook_non_success_status_failure_witness :
    (sendPayload (sendMessagePayload "hi") (HTTPResult.response 404 "missing") =
      some ("discord webhook returned error: " ++ toString 404 ++ " - " ++ "missing")) ∧
    sendPayload (sendMessagePayload "hi") (HTTPResult.response 204 "") = none ∧
    sendImageHTTPOutcome (HTTPResult.response 204 "") = none :=
  ⟨((webhook_non_success_status_failure (sendMessagePayload "hi") 404 "missing").2.2.1
      (by decide)).1,
   ((webhook_non_success_status_failure (sendMessagePayload "hi") 204 "").2.2.2
      (by decide)).1,
   ((webhook_non_success_status_failure (sendMessagePayload "hi") 204 "").2.2.2
      (by decide)).2⟩

/-- Oracle for a `Connect` call in the orchestration flow: logged in, the
library connect call succeeds, the transport never reports connected, and the
caller context carries the 60-second deadline set in `main`. -/
def connectEnvNever : ConnectEnv :=
  { loggedIn := true, libConnectErr := none, connectedAt := none, ctxDeadline := 60000 }

/-- Counterexample to C1 as stated: with a never-connected transport and the
uncancelled 60-second caller context of the orchestration flow, `Connect`
returns its timeout error at 30 000 ms — the hard-coded internal
`time.After(30 * time.Second)` — not at the caller-configured 60 000 ms. -/
theorem connect_hardcoded_timeout_counterexample :
    Connect connectEnvNever 100 = ConnectOutcome.timeoutErr 30000 ∧
    ConnectOutcome.timeoutErr 30000 ≠ ConnectOutcome.timeoutErr 60000 := by
  decide

/-- Helper for C1: with no connected signal and a context deadline beyond
30 000 ms, the polling loop returns the internal timeout error at exactly
30 000 ms, given enough fuel to reach it. -/
theorem connectLoop_internal_timeout (deadline : Nat) (hd : 30000 < deadline) :
    ∀ (fuel t : Nat), t < 30000 → 30000 ≤ t + 500 * fuel →
      connectLoop deadline none fuel t = ConnectOutcome.timeoutErr 30000 := by
  intro fuel
  induction fuel with
  | zero => intro t ht hle; omega
  | succ n ih =>
      intro t ht hle
      by_cases h30 : 30000 ≤ t + 500
      · have hwake : min deadline (min 30000 (t + 500)) = 30000 := by omega
        have hne : (30000 : Nat) ≠ deadline := by omega
        simp only [connectLoop, hwake]
        rw [if_neg hne, if_pos trivial]
      · have hwake : min deadline (min 30000 (t + 500)) = t + 500 := by omega
        have hne : t + 500 ≠ deadline := by omega
        have hne2 : t + 500 ≠ 30000 := by omega
        simp only [connectLoop, hwake]
        rw [if_neg hne, if_neg hne2]
        exact ih (t + 500) (by omega) (by omega)

/-- Claim C1 (corrected): when the transport never reports connected and the
caller context's deadline lies beyond 30 seconds (as the 60-second deadline of
the orchestration flow does), `Connect` fails with its timeout error exactly
when the hard-coded internal 30-second timeout elapses — before the
caller-configured deadline, which it never honours as the failure boundary. -/
theorem connect_times_out_at_internal_30s (env : ConnectEnv) (fuel : Nat)
    (hlog : env.loggedIn = true) (hlib : env.libConnectErr = none)
    (hnever : env.connectedAt = none) (hd : 30000 < env.ctxDeadline)
    (hfuel : 30000 ≤ 500 * fuel) :
    Connect env fuel = ConnectOutcome.timeoutErr 30000 := by
  obtain ⟨lg, lib, ca, dl⟩ := env
  dsimp only at hlog hlib hnever hd
  subst hlog hlib hnever
  show connectLoop dl none fuel 0 = ConnectOutcome.timeoutErr 30000
  exact connectLoop_internal_timeout dl hd fuel 0 (by omega) (by omega)

/-- Witness for C1 (amended) at the orchestration flow's concrete deadline. -/
theorem connect_times_out_at_internal_30s_witness :
    Connect connectEnvNever 60 = ConnectOutcome.timeoutErr 30000 :=
  connect_times_out_at_internal_30s connectEnvNever 60 rfl rfl rfl
    (by decide) (by decide)

/-- The pairing run used as counterexample for C2: client creation succeeds,
the store is unpaired, the operator picks QR pairing, and pairing fails. -/
def pairEnvQRFail : PairEnv :=
  { sessionPathEnv := "./sessions/", newClientErr := none, loggedIn := false,
    choice := "1", phoneInput := "", pairQRErr := some "websocket closed",
    pairPhoneErr := none }

/-- Counterexample to C2 as stated: in interactive pairing mode, a pairing
failure exits through `log.Fatalf` (hence `os.Exit`), which skips the
deferred `waClient.Close()`; the session storage handle is not closed on
this exit path. -/
theorem pairing_failure_skips_close_counterexample :
    countClose (runPair pairEnvQRFail) = 0 ∧
    hasFatal (runPair pairEnvQRFail) = true := by
  decide

/-- Claim C2 (corrected): in the fetch-and-deliver flow, once the client is
created, `Close` runs exactly once on every exit path; in pairing mode it
runs exactly once on paths that return normally, while paths that exit
through `log.Fatalf` terminate without running it. -/
theorem close_called_once_per_exit_path (env : MainEnv) (cfg : Config) (penv : PairEnv)
    (hload : Load env.environ = Except.ok cfg) (hnc : env.newClientErr = none)
    (hpc : penv.newClientErr = none) :
    countClose (runMain env) = 1 ∧
    countClose (runPair penv) = (if hasFatal (runPair penv) then 0 else 1) := by
  constructor
  · obtain ⟨environ, nce, li, ce, fr, sie, see, sse, now⟩ := env
    dsimp only at hload hnc
    subst hnc
    cases li <;> cases ce <;> cases fr <;> cases sie <;> cases see <;>
      simp [runMain, hload, countClose, sendErrorToDiscordTrace]
  · obtain ⟨spe, pnce, pli, choice, phin, pqr, pph⟩ := penv
    dsimp only at hpc
    subst hpc
    by_cases hc1 : choice = "1" <;> by_cases hc2 : choice = "2" <;>
      cases pli <;> cases pqr <;> cases pph <;>
      simp [runPair, countClose, hasFatal, hc1, hc2]

/-- Witness for C2 (amended) at a concrete happy-path run and a concrete
normally-returning pairing run. -/
theorem close_called_once_per_exit_path_witness :
    countClose (runMain mainEnvHappy) = 1 ∧
    countClose (runPair { pairEnvQRFail with loggedIn := true }) =
      (if hasFatal (runPair { pairEnvQRFail with loggedIn := true }) then 0 else 1) :=
  close_called_once_per_exit_path mainEnvHappy cfgFull
    { pairEnvQRFail with loggedIn := true } rfl rfl rfl

/-- Occurrences of a teardown effect distribute over trace concatenation. -/
theorem countTEv_append (e : TEv) (a b : List TEv) :
    countTEv e (a ++ b) = countTEv e a + countTEv e b := by
  induction a with
  | nil => simp [countTEv]
  | cons x rest ih => simp [countTEv, ih]; omega

/-- Helper for C8: each teardown effect occurs at most once more than the
corresponding resource is still held. -/
theorem runTeardown_counts_le (err : Option String) :
    ∀ (ops : List TOp) (s : TeardownState),
      countTEv TEv.closeFrame (runTeardown err s ops).2.1 ≤
        (if s.sockConnected then 1 else 0) ∧
      countTEv TEv.releaseStore (runTeardown err s ops).2.1 ≤
        (if s.storeOpen then 1 else 0) := by
  intro ops
  induction ops with
  | nil => intro s; simp [runTeardown, countTEv]
  | cons op rest ih =>
      intro s
      obtain ⟨sock, store⟩ := s
      obtain ⟨h1a, h1b⟩ := ih ⟨false, store⟩
      obtain ⟨h2a, h2b⟩ := ih ⟨false, false⟩
      cases op <;> cases sock <;> cases store <;>
        simp [runTeardown, clientDisconnect, meowDisconnect, clientClose, storeClose,
          countTEv_append, countTEv] at h1a h1b h2a h2b ⊢ <;>
        omega

/-- Helper for C8: from a fully torn-down state, any further sequence of
`Disconnect`/`Close` calls emits no effect and returns no error. -/
theorem runTeardown_torn_down (err : Option String) :
    ∀ ops : List TOp,
      (runTeardown err ⟨false, false⟩ ops).2.1 = [] ∧
      ∀ r ∈ (runTeardown err ⟨false, false⟩ ops).2.2, r = none := by
  intro ops
  induction ops with
  | nil => simp [runTeardown]
  | cons op rest ih =>
      obtain ⟨h1, h2⟩ := ih
      cases op <;>
        simp [runTeardown, clientDisconnect, meowDisconnect, clientClose, storeClose,
          h1] <;>
        exact h2

/-- Claim C8 (confirmed): over any sequence of `Disconnect`/`Close` calls,
the websocket close frame and the store release each happen at most once;
`Close` leaves the facade fully torn down; and from a torn-down state (after
the first `Close`) every further call emits no effect and returns no
error. -/
theorem teardown_idempotent (err : Option String) (s : TeardownState) (ops : List TOp) :
    countTEv TEv.closeFrame (runTeardown err s ops).2.1 ≤ 1 ∧
    countTEv TEv.releaseStore (runTeardown err s ops).2.1 ≤ 1 ∧
    (clientClose err s).1.sockConnected = false ∧
    (clientClose err s).1.storeOpen = false ∧
    (s.sockConnected = false → s.storeOpen = false →
      (runTeardown err s ops).2.1 = [] ∧
      ∀ r ∈ (runTeardown err s ops).2.2, r = none) := by
  obtain ⟨sock, store⟩ := s
  have h := runTeardown_counts_le err ops ⟨sock, store⟩
  refine ⟨?_, ?_, ?_, ?_, ?_⟩
  · cases sock <;> simp_all
  · cases store <;> simp_all
  · cases sock <;> cases store <;>
      simp [clientClose, meowDisconnect, storeClose]
  · cases sock <;> cases store <;>
      simp [clientClose, meowDisconnect, storeClose]
  · intro h1 h2
    dsimp only at h1 h2
    subst h1 h2
    exact runTeardown_torn_down err ops

/-- Witness for C8: a torn-down facade absorbs a further
`Close`-`Disconnect`-`Close` sequence with no effects and no errors, even
when the store's first close would have failed. -/
theorem teardown_idempotent_witness :
    countTEv TEv.closeFrame
      (runTeardown (some "disk error") ⟨false, false⟩
        [TOp.closeOp, TOp.disconnectOp, TOp.closeOp]).2.1 ≤ 1 ∧
    countTEv TEv.releaseStore
      (runTeardown (some "disk error") ⟨false, false⟩
        [TOp.closeOp, TOp.disconnectOp, TOp.closeOp]).2.1 ≤ 1 ∧
    (clientClose (some "disk error") ⟨false, false⟩).1.sockConnected = false ∧
    (clientClose (some "disk error") ⟨false, false⟩).1.storeOpen = false ∧
    ((runTeardown (some "disk error") ⟨false, false⟩
        [TOp.closeOp, TOp.disconnectOp, TOp.closeOp]).2.1 = [] ∧
      ∀ r ∈ (runTeardown (some "disk error") ⟨false, false⟩
        [TOp.closeOp, TOp.disconnectOp, TOp.closeOp]).2.2, r = none) := by
  have h := teardown_idempotent (some "disk error") ⟨false, false⟩
    [TOp.closeOp, TOp.disconnectOp, TOp.closeOp]
  exact ⟨h.1, h.2.1, h.2.2.1, h.2.2.2.1, h.2.2.2.2 rfl rfl⟩

/-- Claim C9 (confirmed): when the webhook call that reports a prior failure
itself fails, the secondary failure produces exactly one local log line and
nothing else — the helper still makes exactly one webhook call, and the run's
externally visible behaviour (every non-log event, in order) is identical to
a run in which the report succeeded. -/
theorem secondary_sink_failure_local_only (t m e : String) (env : MainEnv) :
    sendErrorToDiscordTrace (some e) t m =
      [Ev.sinkError t m, Ev.logLine ("Failed to send error message to Discord: " ++ e)] ∧
    countSink (sendErrorToDiscordTrace (some e) t m) = 1 ∧
    purgeLogs (runMain { env with sendErrorErr := some e }) =
      purgeLogs (runMain { env with sendErrorErr := none }) := by
  refine ⟨rfl, rfl, ?_⟩
  obtain ⟨environ, nce, li, ce, fr, sie, see, sse, now⟩ := env
  cases hL : Load environ <;> cases nce <;> cases li <;> cases ce <;> cases fr <;>
    cases sie <;>
    simp [runMain, hL, purgeLogs, sendErrorToDiscordTrace, isLogEv]

/-- Claim C10 (confirmed): on the happy path the error returned by the final
`SendSuccessMessage` is discarded — a run in which it fails is
indistinguishable from one in which it succeeds, and it still ends with the
success notice, `Disconnect`, the completion log line, and the deferred
`Close`, reporting the delivery failure nowhere. -/
theorem success_notice_failure_ignored (env : MainEnv) (cfg : Config)
    (d : List Nat) (e : String)
    (hload : Load env.environ = Except.ok cfg)
    (hnc : env.newClientErr = none) (hli : env.loggedIn = true)
    (hco : env.connectErr = none) (hf : env.fetchResult = Except.ok d)
    (hsi : env.sendImageErr = none) :
    runMain { env with sendSuccessErr := some e } =
      runMain { env with sendSuccessErr := none } ∧
    runMain { env with sendSuccessErr := some e } =
      [Ev.logLine ("Starting WhatsApp Profile Fetcher for: " ++ cfg.targetPhoneNumber),
       Ev.logLine "Connecting to WhatsApp...",
       Ev.connectCall,
       Ev.logLine ("Fetching profile picture for: " ++ cfg.targetPhoneNumber),
       Ev.fetchCall cfg.targetPhoneNumber,
       Ev.logLine "Sending profile picture to Discord...",
       Ev.sinkImage (makeFilename cfg.targetPhoneNumber env.now) cfg.targetPhoneNumber,
       Ev.logLine "Profile picture sent successfully!",
       Ev.sinkSuccess "Profile Picture Fetched"
         ("Successfully fetched and sent profile picture for " ++ cfg.targetPhoneNumber),
       Ev.disconnectCall,
       Ev.logLine "Task completed successfully!",
       Ev.closeCall] := by
  obtain ⟨environ, nce, li, ce, fr, sie, see, sse, now⟩ := env
  dsimp only at hload hnc hli hco hf hsi ⊢
  subst hnc hli hco hf hsi
  exact ⟨rfl, by simp [runMain, hload]⟩

/-- Witness for C10 at a concrete happy-path run whose success notice
fails. -/
theorem success_notice_failure_ignored_witness :
    runMain { mainEnvHappy with sendSuccessErr := some "rate limited" } =
      runMain { mainEnvHappy with sendSuccessErr := none } ∧
    runMain { mainEnvHappy with sendSuccessErr := some "rate limited" } =
      [Ev.logLine ("Starting WhatsApp Profile Fetcher for: " ++ cfgFull.targetPhoneNumber),
       Ev.logLine "Connecting to WhatsApp...",
       Ev.connectCall,
       Ev.logLine ("Fetching profile picture for: " ++ cfgFull.targetPhoneNumber),
       Ev.fetchCall cfgFull.targetPhoneNumber,
       Ev.logLine "Sending profile picture to Discord...",
       Ev.sinkImage (makeFilename cfgFull.targetPhoneNumber mainEnvHappy.now)
         cfgFull.targetPhoneNumber,
       Ev.logLine "Profile picture sent successfully!",
       Ev.sinkSuccess "Profile Picture Fetched"
         ("Successfully fetched and sent profile picture for " ++ cfgFull.targetPhoneNumber),
       Ev.disconnectCall,
       Ev.logLine "Task completed successfully!",
       Ev.closeCall] :=
  success_notice_failure_ignored mainEnvHappy cfgFull [255, 216] "rate limited"
    rfl rfl rfl rfl rfl rfl

end GoWebWA
